import Mathlib

/-!
Verification development for the Radarr/Sonarr custom-format upgrade engine
(`app.py`) and its serving layer (`web_service.py`).

The Python source is shallowly embedded: every HTTP read the engine performs
becomes an explicit environment function (the per-cycle snapshot of the
catalog services), every mutating call (PUT/POST) becomes an element of an
explicit action list, and `random.sample` is modelled by a permutation
oracle together with the exact bounds check CPython performs.  Thread-pool
completion order in `parallel_map` is nondeterministic in the source;
membership in the result list is order-independent, and the embedding fixes
submission order.  The `RECENT_UPGRADES` in-memory cache writes and log
statements are not modelled; no claim refers to them.
-/

set_option maxHeartbeats 1000000

/-- Python `sorted(set(xs))`: the ascending list of the distinct elements of
`xs` (used for tag sets in `run_radarr_upgrade`/`run_sonarr_upgrade` and for
the episode-id search batch in `run_sonarr_upgrade`). -/
def sorted_set (l : List Int) : List Int :=
  List.insertionSort (fun a b => a ≤ b) l.dedup

/-- A Radarr movie record, restricted to the fields `app.py` reads.
`movieFileId = 0` models a missing/absent file reference (Python truthiness
of `m.get("movieFileId")`), and `tags` models `m.get("tags", [])`. -/
structure Movie where
  id : Int
  title : String
  monitored : Bool
  movieFileId : Int
  qualityProfileId : Int
  tags : List Int
deriving DecidableEq

/-- A movie-file record: `mf.get("customFormatScore", 0)` defaults to `0`
when the field is absent, hence the `Option`. -/
structure MovieFile where
  customFormatScore : Option Int
deriving DecidableEq

/-- A quality-profile record; `cutoffFormatScore` is `none` when the field
is missing from the payload (`p.get("cutoffFormatScore", 0)`). -/
structure QualityProfile where
  id : Int
  cutoffFormatScore : Option Int
deriving DecidableEq

/-- `ArrClient.quality_profiles_cutoff_scores`: the dict
`{p["id"]: p.get("cutoffFormatScore", 0)}` as a partial map; on duplicate
profile ids the last entry wins, and a record without a cutoff is stored
as `0`. -/
def quality_profiles_cutoff_scores (profiles : List QualityProfile) : Int → Option Int :=
  fun pid =>
    (profiles.reverse.find? (fun p => p.id == pid)).map (fun p => p.cutoffFormatScore.getD 0)

/-- A tag record as returned by `GET /tag`. -/
structure TagRec where
  id : Int
  label : String
deriving DecidableEq

/-- `ArrClient.ensure_tag`: look the label up in the store (first match),
otherwise create a tag; `freshId` is the id the service assigns to a newly
created tag.  Returns the tag id together with the resulting store. -/
def ensure_tag (store : List TagRec) (freshId : Int) (label : String) : Int × List TagRec :=
  match store.find? (fun t => t.label == label) with
  | some t => (t.id, store)
  | none => (freshId, store ++ [TagRec.mk freshId label])

/-- The value stored for one Radarr upgrade candidate
(`candidates[mid] = {"title": ..., "currentScore": ..., "requiredScore": ...}`). -/
structure RadarrCandidate where
  title : String
  currentScore : Int
  requiredScore : Int
deriving DecidableEq

/-- The `fetched` list built by `parallel_map(fetch_score, movies)` inside
`collect_radarr_upgrade_candidates`: for each movie whose movie-file fetch
succeeds, the tuple `(id, customFormatScore or 0, title)`.  A failed fetch
contributes nothing (`parallel_map` swallows the exception). -/
def radarr_fetched (movies : List Movie) (fetchFile : Int → Option MovieFile) :
    List (Int × Int × String) :=
  movies.filterMap (fun m =>
    (fetchFile m.movieFileId).map (fun mf => (m.id, mf.customFormatScore.getD 0, m.title)))

/-- `collect_radarr_upgrade_candidates`: filter to monitored movies with a
file, fetch scores, and keep `movieId -> info` for movies strictly below
their profile cutoff that do not carry the upgrade tag.  The Python dict is
modelled as an association list. -/
def collect_radarr_upgrade_candidates (qScores : Int → Option Int) (allMovies : List Movie)
    (fetchFile : Int → Option MovieFile) (tagId : Int) : List (Int × RadarrCandidate) :=
  let movies := allMovies.filter (fun m => m.monitored && !(m.movieFileId == 0))
  let fetched := radarr_fetched movies fetchFile
  movies.filterMap (fun m =>
    match fetched.find? (fun t => t.1 == m.id) with
    | none => none
    | some (_, current, title) =>
      if current < (qScores m.qualityProfileId).getD 0 ∧ m.tags.contains tagId = false then
        some (m.id, ⟨title, current, (qScores m.qualityProfileId).getD 0⟩)
      else none)

/-- A Sonarr series record, restricted to the fields `app.py` reads.
`episodeFileCount` models `serie.get("statistics", {}).get("episodeFileCount", 0)`. -/
structure Series where
  id : Int
  title : String
  monitored : Bool
  qualityProfileId : Int
  episodeFileCount : Nat
  tags : List Int
deriving DecidableEq

/-- An episode-file record (`GET /episodefile?seriesId=`). -/
structure EpisodeFile where
  id : Int
  customFormatScore : Option Int
deriving DecidableEq

/-- The value stored for one Sonarr upgrade candidate, keyed by episode-file id. -/
structure SonarrCandidate where
  title : String
  seriesId : Int
  currentScore : Int
  requiredScore : Int
deriving DecidableEq

/-- `collect_sonarr_upgrade_candidates`: per series, skip it when it has no
episode files or already carries the tag (series-level exclusion); otherwise
fetch its episode files (`none` models the logged-and-skipped fetch failure)
and keep every file strictly below the series' profile cutoff, keyed by the
episode-file id. -/
def collect_sonarr_upgrade_candidates (qScores : Int → Option Int) (seriesList : List Series)
    (episodeFiles : Int → Option (List EpisodeFile)) (tagId : Int) :
    List (Int × SonarrCandidate) :=
  seriesList.flatMap (fun serie =>
    if serie.episodeFileCount = 0 then []
    else if serie.tags.contains tagId then []
    else
      match episodeFiles serie.id with
      | none => []
      | some epfs =>
        epfs.filterMap (fun epf =>
          if epf.customFormatScore.getD 0 < (qScores serie.qualityProfileId).getD 0 then
            some (epf.id,
              ⟨serie.title ++ " (EpisodeFile " ++ toString epf.id ++ ")",
               serie.id, epf.customFormatScore.getD 0,
               (qScores serie.qualityProfileId).getD 0⟩)
          else none))

/-- CPython `random.sample(population, k)`: raises (`none`) unless
`0 ≤ k ≤ len(population)`, otherwise returns `k` positions drawn without
replacement.  The randomness is modelled by `oracle`, which is assumed (in
the theorems) to permute its input; the sample is the first `k` entries of
that permutation. -/
def random_sample (oracle : List Int → List Int) (population : List Int) (k : Int) :
    Option (List Int) :=
  if 0 ≤ k ∧ k ≤ (population.length : Int) then
    some ((oracle population).take k.toNat)
  else none

/-- The selection step shared by `run_radarr_upgrade` (lines 370-372) and
`run_sonarr_upgrade` (lines 451-453):
`random.sample(list(candidates.keys()), k=min(num_to_upgrade, len(candidates)))`. -/
def select_k (oracle : List Int → List Int) (num : Int) (keys : List Int) :
    Option (List Int) :=
  random_sample oracle keys (min num (keys.length : Int))

/-- The observable side effects of one Radarr cycle: `.collect` marks the
call to `collect_radarr_upgrade_candidates`, `.updateMovie` a `PUT /movie`,
`.searchMovies` the `MoviesSearch` command. -/
inductive RadarrAction where
  | collect
  | updateMovie (m : Movie)
  | searchMovies (ids : List Int)
deriving DecidableEq

/-- The per-cycle snapshot `run_radarr_upgrade` works against: the movie
list, the cutoff map, the per-file score fetch, the by-id re-fetch used
after selection, the ensured tag id, the configured count and the sampling
oracle. -/
structure RadarrEnv where
  enabled : Bool
  movies : List Movie
  qScores : Int → Option Int
  fetchFile : Int → Option MovieFile
  getMovie : Int → Movie
  tagId : Int
  num : Int
  oracle : List Int → List Int

/-- The full-cycle reset update for one movie:
`m["tags"] = [t for t in m.get("tags", []) if t != tag_id]`. -/
def radarr_remove_tag_action (tagId : Int) (m : Movie) : RadarrAction :=
  RadarrAction.updateMovie { m with tags := m.tags.filter (fun t => !(t == tagId)) }

/-- The tagging update for one selected movie: re-fetch it and set
`tags = sorted(set(tags) | {tag_id})`. -/
def radarr_tag_action (env : RadarrEnv) (mid : Int) : RadarrAction :=
  let m := env.getMovie mid
  RadarrAction.updateMovie { m with tags := sorted_set (env.tagId :: m.tags) }

/-- `run_radarr_upgrade`: skip when disabled or the movie list is empty;
when every movie carries the tag, remove it from all movies and stop (the
full-cycle reset, checked before candidate collection); otherwise collect
candidates, stop if there are none, select, tag each selected movie and
issue one `MoviesSearch`.  A failing `random.sample` is an exception. -/
def run_radarr_upgrade (env : RadarrEnv) : Except String (List RadarrAction) :=
  if env.enabled = false then Except.ok [] else
  if env.movies.isEmpty then Except.ok [] else
  if env.movies.all (fun m => m.tags.contains env.tagId) then
    Except.ok (env.movies.map (radarr_remove_tag_action env.tagId))
  else
    let candidates :=
      collect_radarr_upgrade_candidates env.qScores env.movies env.fetchFile env.tagId
    if candidates.isEmpty then Except.ok [RadarrAction.collect] else
    match select_k env.oracle env.num (candidates.map Prod.fst) with
    | none => Except.error "ValueError: invalid sample size"
    | some selected =>
      Except.ok (RadarrAction.collect ::
        (selected.map (radarr_tag_action env) ++ [RadarrAction.searchMovies selected]))

/-- The payload `GET /episode?episodeFileId=` can produce in
`episode_ids_for_episodefile`: an exception, a (possibly empty) list of
episode records, or a single record that may or may not carry an `id`. -/
inductive EpisodeLookup where
  | failure
  | listRes (ids : List Int)
  | dictRes (found : Option Int)
deriving DecidableEq

/-- `episode_ids_for_episodefile` inside `run_sonarr_upgrade`: a non-empty
list yields its ids, a dict with an `id` yields a singleton, everything else
(including an exception) yields `[]`. -/
def episode_ids_for_episodefile (resolve : Int → EpisodeLookup) (eid : Int) : List Int :=
  match resolve eid with
  | EpisodeLookup.failure => []
  | EpisodeLookup.listRes ids => if ids.isEmpty then [] else ids
  | EpisodeLookup.dictRes (some i) => [i]
  | EpisodeLookup.dictRes none => []

/-- The observable side effects of one Sonarr cycle: `.collect` marks the
call to `collect_sonarr_upgrade_candidates`, `.updateSeries` a
`PUT /series`, `.searchEpisodes` the `EpisodeSearch` command. -/
inductive SonarrAction where
  | collect
  | updateSeries (s : Series)
  | searchEpisodes (ids : List Int)
deriving DecidableEq

/-- The per-cycle snapshot `run_sonarr_upgrade` works against. -/
structure SonarrEnv where
  enabled : Bool
  qScores : Int → Option Int
  seriesList : List Series
  episodeFiles : Int → Option (List EpisodeFile)
  getSeries : Int → Series
  resolve : Int → EpisodeLookup
  tagId : Int
  num : Int
  oracle : List Int → List Int

/-- The tagging update for one selected episode file: look its series id up
in the candidate map, re-fetch the series and set
`tags = sorted(set(tags) | {tag_id})`.  The `none` branch is unreachable
because selection draws from the candidate keys. -/
def sonarr_tag_action (env : SonarrEnv) (candidates : List (Int × SonarrCandidate))
    (epId : Int) : SonarrAction :=
  let seriesId :=
    match candidates.find? (fun c => c.1 == epId) with
    | some c => c.2.seriesId
    | none => 0
  let serie := env.getSeries seriesId
  SonarrAction.updateSeries { serie with tags := sorted_set (env.tagId :: serie.tags) }

/-- `run_sonarr_upgrade`: skip when disabled; collect candidates, stop if
there are none, select, tag the owning series of each selected episode file,
best-effort resolve the selected file ids to episode ids, and issue one
`EpisodeSearch` with `sorted(set(ids))` — or skip the search entirely when
resolution yielded nothing. -/
def run_sonarr_upgrade (env : SonarrEnv) : Except String (List SonarrAction) :=
  if env.enabled = false then Except.ok [] else
  let candidates :=
    collect_sonarr_upgrade_candidates env.qScores env.seriesList env.episodeFiles env.tagId
  if candidates.isEmpty then Except.ok [SonarrAction.collect] else
  match select_k env.oracle env.num (candidates.map Prod.fst) with
  | none => Except.error "ValueError: invalid sample size"
  | some selected =>
    let allEpisodeIds := sorted_set (selected.flatMap (episode_ids_for_episodefile env.resolve))
    Except.ok (SonarrAction.collect ::
      (selected.map (sonarr_tag_action env candidates) ++
        (if allEpisodeIds.isEmpty then [] else [SonarrAction.searchEpisodes allEpisodeIds])))

/-- What `main()` in `app.py` observably does with the two cycles: each is
attempted inside its own `try`/`except`, the `except` only logs. -/
inductive MainEvent where
  | attemptRadarr
  | radarrFailed (e : String)
  | attemptSonarr
  | sonarrFailed (e : String)
deriving DecidableEq

/-- `main()`: run the Radarr cycle, catch and log any exception; then run
the Sonarr cycle, catch and log any exception.  The cycle outcomes are the
two `Except` parameters. -/
def main_run (radarrRun sonarrRun : Except String Unit) : List MainEvent :=
  ([MainEvent.attemptRadarr] ++
    (match radarrRun with
     | Except.ok _ => []
     | Except.error e => [MainEvent.radarrFailed e])) ++
  ([MainEvent.attemptSonarr] ++
    (match sonarrRun with
     | Except.ok _ => []
     | Except.error e => [MainEvent.sonarrFailed e]))

/-- A typed message on the shared event queue of `web_service.py`. -/
inductive StreamEvent where
  | runStart (target : String)
  | info (msg : String)
  | errorEv (msg : String)
  | doneEv
deriving DecidableEq

/-- `_run_and_stream` in `web_service.py`: one `try` wraps both cycles; the
radarr phase runs for targets `"radarr"`/`"both"`, the sonarr phase for
`"sonarr"`/`"both"`; the first exception jumps to the shared handler, which
emits an `error` event and returns `ok = false`.  Returns the events put on
the queue and the `ok` flag of the result dict. -/
def run_and_stream (target : String) (radarrRun sonarrRun : Except String Unit) :
    List StreamEvent × Bool :=
  let evs0 := [StreamEvent.runStart target]
  if target == "radarr" || target == "both" then
    match radarrRun with
    | Except.error e =>
      (evs0 ++ [StreamEvent.info "starting radarr", StreamEvent.errorEv e], false)
    | Except.ok _ =>
      let evs1 := evs0 ++ [StreamEvent.info "starting radarr", StreamEvent.info "finished radarr"]
      if target == "sonarr" || target == "both" then
        match sonarrRun with
        | Except.error e =>
          (evs1 ++ [StreamEvent.info "starting sonarr", StreamEvent.errorEv e], false)
        | Except.ok _ =>
          (evs1 ++ [StreamEvent.info "starting sonarr", StreamEvent.info "finished sonarr",
                    StreamEvent.doneEv], true)
      else (evs1 ++ [StreamEvent.doneEv], true)
  else
    if target == "sonarr" || target == "both" then
      match sonarrRun with
      | Except.error e =>
        (evs0 ++ [StreamEvent.info "starting sonarr", StreamEvent.errorEv e], false)
      | Except.ok _ =>
        (evs0 ++ [StreamEvent.info "starting sonarr", StreamEvent.info "finished sonarr",
                  StreamEvent.doneEv], true)
    else (evs0 ++ [StreamEvent.doneEv], true)

/-- The `LAST_STATUS` record of `web_service.py`
(`{"started", "finished", "running", "last_result"}`); timestamps are
abstracted to naturals and the result dict to its `ok` flag. -/
structure RunStatus where
  started : Option Nat
  finished : Option Nat
  running : Bool
  last_result : Option Bool
deriving DecidableEq

/-- The process-wide serving state: the `RUN_LOCK`, `LAST_STATUS`, the
number of scheduled-but-unfinished background jobs, and an instrumentation
log recording, for every write to `LAST_STATUS`, whether the run lock was
held at the moment of the write. -/
structure ServerState where
  lockHeld : Bool
  status : RunStatus
  pendingJobs : Nat
  writeLog : List Bool
deriving DecidableEq

/-- The `POST /api/trigger` handler: with the lock held the request is
rejected with `409` and nothing else happens; otherwise `LAST_STATUS` is
set to started/running (a write performed before the background job
acquires the lock) and one background job is scheduled.  Returns the HTTP
status code and the new state. -/
def trigger (now : Nat) (s : ServerState) : Nat × ServerState :=
  if s.lockHeld then (409, s)
  else
    (202, { s with
      status := { started := some now, finished := none, running := true, last_result := none },
      pendingJobs := s.pendingJobs + 1,
      writeLog := s.writeLog ++ [s.lockHeld] })

/-- The `_job` closure scheduled by the trigger handler: acquire `RUN_LOCK`,
run the cycle, write the completion fields of `LAST_STATUS` while still
holding the lock, release the lock. -/
def job_run (now : Nat) (res : Bool) (s : ServerState) : ServerState :=
  let s1 := { s with lockHeld := true }
  let s2 := { s1 with
    status := { s1.status with finished := some now, running := false, last_result := some res },
    writeLog := s1.writeLog ++ [s1.lockHeld] }
  { s2 with lockHeld := false, pendingJobs := s2.pendingJobs - 1 }

/-- `auth.split(" ", 1)[1].strip()`: the bearer token is everything after
the first space, trimmed. -/
def bearer_token (auth : String) : String :=
  match auth.splitOn " " with
  | [] => ""
  | _ :: rest => (String.intercalate " " rest).trim

/-- The `_auth` dependency of `web_service.py`: reject non-allow-listed
clients with `403`; with no configured token refuse with `503`; otherwise
require a `Bearer` header whose token matches the configured secret
(`hmac.compare_digest`, modelled as equality).  The IP allow-list predicate
`_client_allowed` (which defers to the external `ipaddress` library) is
abstracted to the Boolean `allowed`. -/
def auth_check (allowed : Bool) (token : String) (authHeader : String) : Except Nat Unit :=
  if allowed = false then Except.error 403
  else if token = "" then Except.error 503
  else if (authHeader.toLower.startsWith "bearer ") = false then Except.error 401
  else if bearer_token authHeader == token then Except.ok () else Except.error 401

/-! Concrete fixtures used to evaluate the embedded operations on explicit
inputs. -/

/-- An unmonitored, untagged series with one episode file on disk. -/
def fix_series_unmon : Series := ⟨1, "S", false, 1, 1, []⟩

/-- An episode file of `fix_series_unmon` with custom-format score `0`. -/
def fix_epfile : EpisodeFile := ⟨10, some 0⟩

/-- A cutoff map holding profile `1 ↦ 5` only. -/
def fix_qscores : Int → Option Int := fun pid => if pid == 1 then some 5 else none

/-- Episode files by series id: series `1` has exactly `fix_epfile`. -/
def fix_epfiles : Int → Option (List EpisodeFile) :=
  fun sid => if sid == 1 then some [fix_epfile] else none

/-- A monitored movie with a file (id `3`), profile `1`, no tags. -/
def fix_movie : Movie := ⟨1, "M", true, 3, 1, []⟩

/-- The movie-file store: file `3` has custom-format score `2`. -/
def fix_moviefiles : Int → Option MovieFile :=
  fun fid => if fid == 3 then some ⟨some 2⟩ else none

/-- A monitored movie that already carries tag `5`. -/
def fix_movie_tagged : Movie := ⟨1, "A", true, 1, 1, [5]⟩

/-- An unmonitored, untagged movie without a file. -/
def fix_movie_unmon : Movie := ⟨2, "B", false, 0, 1, []⟩

/-- A Radarr cycle snapshot in which every monitored movie carries tag `5`
but the unmonitored movie `fix_movie_unmon` does not. -/
def fix_radarr_env_mixed : RadarrEnv :=
  ⟨true, [fix_movie_tagged, fix_movie_unmon], fun _ => none, fun _ => none,
   fun _ => fix_movie_tagged, 5, 1, fun l => l⟩

/-- A second tagged movie, with unrelated tag `3` as well. -/
def fix_movie_tagged2 : Movie := ⟨2, "B", false, 0, 2, [3, 5]⟩

/-- A Radarr cycle snapshot in which every movie carries tag `5`. -/
def fix_radarr_env_alltagged : RadarrEnv :=
  ⟨true, [fix_movie_tagged, fix_movie_tagged2], fun _ => none, fun _ => none,
   fun _ => fix_movie_tagged, 5, 1, fun l => l⟩

/-- A monitored, untagged series with two episode files on disk. -/
def fix_series2 : Series := ⟨1, "S", true, 1, 2, []⟩

/-- A Sonarr cycle snapshot with two below-cutoff episode files (`10`, `11`);
file `10` resolves to episodes `101, 100`, file `11` fails to resolve. -/
def fix_sonarr_env : SonarrEnv :=
  ⟨true, (fun pid => if pid == 1 then some 5 else none), [fix_series2],
   (fun sid => if sid == 1 then some [⟨10, some 0⟩, ⟨11, some 1⟩] else none),
   (fun _ => fix_series2),
   (fun eid => if eid == 10 then EpisodeLookup.listRes [101, 100] else EpisodeLookup.failure),
   7, 2, fun l => l⟩

/-- The serving state at process start: lock free, no run yet. -/
def fix_server_idle : ServerState := ⟨false, ⟨none, none, false, none⟩, 0, []⟩

/-- A serving state while a run is in flight: lock held, `running = true`. -/
def fix_server_busy : ServerState := ⟨true, ⟨some 1, none, true, none⟩, 1, [false]⟩

/-- A monitored movie whose quality profile is absent from the cutoff map,
with a file whose custom-format score is negative. -/
def fix_movie_negscore : Movie := ⟨4, "N", true, 6, 9, []⟩

/-- The movie-file store for `fix_movie_negscore`: file `6` scores `-1`. -/
def fix_moviefiles_neg : Int → Option MovieFile :=
  fun fid => if fid == 6 then some ⟨some (-1)⟩ else none

/-- A monitored, untagged series whose quality profile is absent from the
cutoff map, with one episode file scoring `-2`. -/
def fix_series_negscore : Series := ⟨2, "T", true, 9, 1, []⟩

/-- Episode files for `fix_series_negscore`. -/
def fix_epfiles_neg : Int → Option (List EpisodeFile) :=
  fun sid => if sid == 2 then some [⟨20, some (-2)⟩] else none

/-! ### Helper lemmas -/

theorem mem_sorted_set {a : Int} {l : List Int} : a ∈ sorted_set l ↔ a ∈ l := by
  unfold sorted_set
  rw [(List.perm_insertionSort _ _).mem_iff, List.mem_dedup]

theorem sorted_set_sorted (l : List Int) : (sorted_set l).Sorted (fun a b => a ≤ b) :=
  List.sorted_insertionSort _ _

theorem sorted_set_nodup (l : List Int) : (sorted_set l).Nodup :=
  (List.perm_insertionSort _ _).nodup_iff.mpr (List.nodup_dedup l)

theorem mem_map_fst_iff {α : Type} {l : List (Int × α)} {k : Int} :
    k ∈ l.map Prod.fst ↔ ∃ v, (k, v) ∈ l := by
  rw [List.mem_map]
  constructor
  · rintro ⟨⟨a, b⟩, hab, rfl⟩
    exact ⟨b, hab⟩
  · rintro ⟨v, hv⟩
    exact ⟨(k, v), hv, rfl⟩

theorem radarr_fetched_mem {movies : List Movie} {fetchFile : Int → Option MovieFile}
    {t : Int × Int × String} :
    t ∈ radarr_fetched movies fetchFile ↔
      ∃ m ∈ movies, ∃ mf, fetchFile m.movieFileId = some mf ∧
        t = (m.id, mf.customFormatScore.getD 0, m.title) := by
  unfold radarr_fetched
  rw [List.mem_filterMap]
  constructor
  · rintro ⟨m, hm, hmap⟩
    rw [Option.map_eq_some'] at hmap
    obtain ⟨mf, hmf, ht⟩ := hmap
    exact ⟨m, hm, mf, hmf, ht.symm⟩
  · rintro ⟨m, hm, mf, hmf, ht⟩
    refine ⟨m, hm, ?_⟩
    rw [hmf, ht]
    rfl

theorem radarr_find_fetched {movies : List Movie} {fetchFile : Int → Option MovieFile}
    {m : Movie} {mf : MovieFile}
    (inj : ∀ m1 ∈ movies, ∀ m2 ∈ movies, m1.id = m2.id → m1 = m2)
    (hm : m ∈ movies) (hf : fetchFile m.movieFileId = some mf) :
    (radarr_fetched movies fetchFile).find? (fun t => t.1 == m.id) =
      some (m.id, mf.customFormatScore.getD 0, m.title) := by
  induction movies with
  | nil => cases hm
  | cons x xs ih =>
    have inj' : ∀ m1 ∈ xs, ∀ m2 ∈ xs, m1.id = m2.id → m1 = m2 := fun m1 h1 m2 h2 =>
      inj m1 (List.mem_cons_of_mem _ h1) m2 (List.mem_cons_of_mem _ h2)
    cases hfx : fetchFile x.movieFileId with
    | none =>
      have hshape : radarr_fetched (x :: xs) fetchFile = radarr_fetched xs fetchFile := by
        simp [radarr_fetched, List.filterMap_cons, hfx]
      rcases List.mem_cons.mp hm with hmx | hmxs
      · subst hmx
        rw [hf] at hfx
        cases hfx
      · rw [hshape]
        exact ih inj' hmxs
    | some mfx =>
      have hshape : radarr_fetched (x :: xs) fetchFile =
          (x.id, mfx.customFormatScore.getD 0, x.title) :: radarr_fetched xs fetchFile := by
        simp [radarr_fetched, List.filterMap_cons, hfx]
      rcases List.mem_cons.mp hm with hmx | hmxs
      · subst hmx
        rw [hf] at hfx
        injection hfx with hmm
        rw [hshape, List.find?_cons_of_pos _ (by simp), hmm]
      · by_cases hid : x.id = m.id
        · have hxm : x = m := inj x (List.mem_cons_self x xs) m hm hid
          subst hxm
          rw [hf] at hfx
          injection hfx with hmm
          rw [hshape, List.find?_cons_of_pos _ (by simp), hmm]
        · rw [hshape, List.find?_cons_of_neg _ (by simp [hid])]
          exact ih inj' hmxs

theorem radarr_collect_mem {qScores : Int → Option Int} {allMovies : List Movie}
    {fetchFile : Int → Option MovieFile} {tagId mid : Int} {info : RadarrCandidate}
    (inj : ∀ m1 ∈ allMovies, ∀ m2 ∈ allMovies, m1.id = m2.id → m1 = m2) :
    (mid, info) ∈ collect_radarr_upgrade_candidates qScores allMovies fetchFile tagId ↔
      ∃ m ∈ allMovies, m.id = mid ∧ m.monitored = true ∧ m.movieFileId ≠ 0 ∧
        m.tags.contains tagId = false ∧
        ∃ mf, fetchFile m.movieFileId = some mf ∧
          mf.customFormatScore.getD 0 < (qScores m.qualityProfileId).getD 0 ∧
          info = ⟨m.title, mf.customFormatScore.getD 0, (qScores m.qualityProfileId).getD 0⟩ := by
  have injF : ∀ m1 ∈ allMovies.filter (fun m => m.monitored && !(m.movieFileId == 0)),
      ∀ m2 ∈ allMovies.filter (fun m => m.monitored && !(m.movieFileId == 0)),
      m1.id = m2.id → m1 = m2 := fun m1 h1 m2 h2 =>
    inj m1 (List.mem_of_mem_filter h1) m2 (List.mem_of_mem_filter h2)
  simp only [collect_radarr_upgrade_candidates]
  rw [List.mem_filterMap]
  constructor
  · rintro ⟨m, hmF, hsome⟩
    have hm := List.mem_of_mem_filter hmF
    have hpred := (List.mem_filter.mp hmF).2
    rw [Bool.and_eq_true] at hpred
    obtain ⟨hmon, hfid0⟩ := hpred
    have hfid : m.movieFileId ≠ 0 := by simpa using hfid0
    split at hsome
    · cases hsome
    · rename_i t a cur tit hfind
      split at hsome
      · rename_i hcond
        injection hsome with hpair
        rw [Prod.mk.injEq] at hpair
        obtain ⟨hidm, hinfo⟩ := hpair
        have hpa : (a == m.id) = true := by
          have := List.find?_some hfind
          simpa using this
        have ha : a = m.id := eq_of_beq hpa
        have hmem := List.mem_of_find?_eq_some hfind
        rw [radarr_fetched_mem] at hmem
        obtain ⟨m2, hm2F, mf2, hmf2, ht⟩ := hmem
        rw [Prod.mk.injEq, Prod.mk.injEq] at ht
        obtain ⟨ha2, hcur2, htit2⟩ := ht
        have hmm : m2 = m := injF m2 hm2F m hmF (by rw [← ha2, ha])
        subst hmm
        exact ⟨m2, hm, hidm, hmon, hfid, hcond.2, mf2, hmf2,
          by rw [← hcur2]; exact hcond.1, by rw [← hinfo, hcur2, htit2]⟩
      · cases hsome
  · rintro ⟨m, hm, hid, hmon, hfid, htag, mf, hmf, hlt, hinfo⟩
    have hmF : m ∈ allMovies.filter (fun m => m.monitored && !(m.movieFileId == 0)) :=
      List.mem_filter.mpr ⟨hm, by simp [hmon, hfid]⟩
    refine ⟨m, hmF, ?_⟩
    rw [radarr_find_fetched injF hmF hmf]
    show (if _ ∧ _ then _ else _) = _
    rw [if_pos ⟨hlt, htag⟩, hid, hinfo]

theorem sonarr_collect_mem {qScores : Int → Option Int} {seriesList : List Series}
    {episodeFiles : Int → Option (List EpisodeFile)} {tagId fid : Int} {info : SonarrCandidate} :
    (fid, info) ∈ collect_sonarr_upgrade_candidates qScores seriesList episodeFiles tagId ↔
      ∃ serie ∈ seriesList, serie.episodeFileCount ≠ 0 ∧ serie.tags.contains tagId = false ∧
        ∃ epfs, episodeFiles serie.id = some epfs ∧ ∃ epf ∈ epfs, epf.id = fid ∧
          epf.customFormatScore.getD 0 < (qScores serie.qualityProfileId).getD 0 ∧
          info = ⟨serie.title ++ " (EpisodeFile " ++ toString epf.id ++ ")", serie.id,
                  epf.customFormatScore.getD 0, (qScores serie.qualityProfileId).getD 0⟩ := by
  simp only [collect_sonarr_upgrade_candidates]
  rw [List.mem_flatMap]
  constructor
  · rintro ⟨serie, hs, hmem⟩
    split at hmem
    · cases hmem
    · split at hmem
      · cases hmem
      · rename_i hcount htag
        split at hmem
        · cases hmem
        · rename_i epfs hepfs
          rw [List.mem_filterMap] at hmem
          obtain ⟨epf, hepf, hsome⟩ := hmem
          split at hsome
          · rename_i hlt
            injection hsome with hpair
            rw [Prod.mk.injEq] at hpair
            obtain ⟨hidf, hinfo⟩ := hpair
            exact ⟨serie, hs, hcount, Bool.not_eq_true _ ▸ Bool.of_not_eq_true htag, epfs, hepfs,
              epf, hepf, hidf, hlt, hinfo.symm⟩
          · cases hsome
  · rintro ⟨serie, hs, hcount, htag, epfs, hepfs, epf, hepf, hidf, hlt, hinfo⟩
    refine ⟨serie, hs, ?_⟩
    rw [if_neg hcount, if_neg (by rw [htag]; simp), hepfs, List.mem_filterMap]
    exact ⟨epf, hepf, by rw [if_pos hlt, hinfo, hidf]⟩

/-! ### Claim theorems -/

/-- C8: `ensure_tag` is idempotent — running it twice with the same label
returns the same tag id both times, leaves the store of the first run
unchanged, and the first run creates at most one new tag. -/
theorem ensure_tag_idempotent (store : List TagRec) (f1 f2 : Int) (label : String) :
    (ensure_tag (ensure_tag store f1 label).2 f2 label).1 = (ensure_tag store f1 label).1 ∧
    (ensure_tag (ensure_tag store f1 label).2 f2 label).2 = (ensure_tag store f1 label).2 ∧
    (ensure_tag store f1 label).2.length ≤ store.length + 1 := by
  unfold ensure_tag
  cases h : store.find? (fun t => t.label == label) with
  | some t => simp [h]
  | none =>
    have happ : (store ++ [TagRec.mk f1 label]).find? (fun t => t.label == label) =
        some (TagRec.mk f1 label) := by
      rw [List.find?_append, h]
      simp
    simp [h, happ]

/-- C9: with an allow-listed client and no configured shared secret, every
request to an authenticated endpoint is refused with `503`, whatever the
`Authorization` header says — the `503` branch of `_auth` precedes any
header inspection. -/
theorem missing_token_fails_closed (authHeader : String) :
    auth_check true "" authHeader = Except.error 503 := by
  rfl

/-- C3: for a non-empty candidate key set and a non-negative configured
count, the selection step succeeds (no `ValueError`), returning exactly
`min(configuredCount, |candidates|)` pairwise-distinct keys, all drawn from
the candidate key set. -/
theorem selection_returns_min_distinct (oracle : List Int → List Int) (num : Int)
    (keys : List Int) (hne : keys ≠ []) (hnum : 0 ≤ num)
    (hperm : (oracle keys).Perm keys) (hnd : keys.Nodup) :
    select_k oracle num keys =
      some ((oracle keys).take (min num (keys.length : Int)).toNat) ∧
    ((oracle keys).take (min num (keys.length : Int)).toNat).length =
      min num.toNat keys.length ∧
    ((oracle keys).take (min num (keys.length : Int)).toNat).Nodup ∧
    ∀ x ∈ (oracle keys).take (min num (keys.length : Int)).toNat, x ∈ keys := by
  have hcond : 0 ≤ min num (keys.length : Int) ∧
      min num (keys.length : Int) ≤ (keys.length : Int) :=
    ⟨le_min hnum (Int.natCast_nonneg _), min_le_right _ _⟩
  refine ⟨?_, ?_, ?_, ?_⟩
  · unfold select_k random_sample
    rw [if_pos hcond]
  · rw [List.length_take, hperm.length_eq]
    omega
  · exact List.Nodup.sublist (List.take_sublist _ _) (hperm.nodup_iff.mpr hnd)
  · intro x hx
    exact hperm.mem_iff.mp (List.take_subset _ _ hx)

/-- Witness for C3 at a concrete population and an over-large request. -/
theorem selection_returns_min_distinct_witness :
    (([1, 2, 3] : List Int) ≠ [] ∧ (0 : Int) ≤ 5 ∧
      (List.reverse ([1, 2, 3] : List Int)).Perm [1, 2, 3] ∧ ([1, 2, 3] : List Int).Nodup) ∧
    (select_k List.reverse 5 ([1, 2, 3] : List Int) =
        some ((List.reverse ([1, 2, 3] : List Int)).take
          (min 5 ((([1, 2, 3] : List Int).length : Nat) : Int)).toNat) ∧
      ((List.reverse ([1, 2, 3] : List Int)).take
          (min 5 ((([1, 2, 3] : List Int).length : Nat) : Int)).toNat).length =
        min (5 : Int).toNat ([1, 2, 3] : List Int).length ∧
      ((List.reverse ([1, 2, 3] : List Int)).take
          (min 5 ((([1, 2, 3] : List Int).length : Nat) : Int)).toNat).Nodup ∧
      ∀ x ∈ (List.reverse ([1, 2, 3] : List Int)).take
          (min 5 ((([1, 2, 3] : List Int).length : Nat) : Int)).toNat,
        x ∈ ([1, 2, 3] : List Int)) :=
  ⟨⟨by decide, by decide, by decide, by decide⟩,
    selection_returns_min_distinct List.reverse 5 ([1, 2, 3] : List Int)
      (by decide) (by decide) (by decide) (by decide)⟩

/-- C4: while the run lock is held, a trigger request returns `409` and
leaves the whole serving state — in particular `RunStatus` and the set of
scheduled jobs — unchanged; any sequence of trigger requests arriving
during the run leaves `running` (and everything else) as it was. -/
theorem trigger_conflict_rejected (s : ServerState) (now : Nat) (nows : List Nat)
    (h : s.lockHeld = true) :
    trigger now s = (409, s) ∧
    nows.foldl (fun st n => (trigger n st).2) s = s ∧
    (nows.foldl (fun st n => (trigger n st).2) s).status.running = s.status.running ∧
    (nows.foldl (fun st n => (trigger n st).2) s).pendingJobs = s.pendingJobs := by
  have h1 : ∀ n, trigger n s = (409, s) := fun n => by
    unfold trigger
    rw [if_pos h]
  have h2 : nows.foldl (fun st n => (trigger n st).2) s = s := by
    induction nows with
    | nil => rfl
    | cons a t ih =>
      rw [List.foldl_cons, h1 a]
      exact ih
  exact ⟨h1 now, h2, by rw [h2], by rw [h2]⟩

/-- Witness for C4 at a concrete in-flight state. -/
theorem trigger_conflict_rejected_witness :
    fix_server_busy.lockHeld = true ∧
    (trigger 9 fix_server_busy = (409, fix_server_busy) ∧
      [4, 5].foldl (fun st n => (trigger n st).2) fix_server_busy = fix_server_busy ∧
      ([4, 5].foldl (fun st n => (trigger n st).2) fix_server_busy).status.running =
        fix_server_busy.status.running ∧
      ([4, 5].foldl (fun st n => (trigger n st).2) fix_server_busy).pendingJobs =
        fix_server_busy.pendingJobs) :=
  ⟨rfl, trigger_conflict_rejected fix_server_busy 9 [4, 5] rfl⟩

/-- C6 counterexample: starting from the idle state, one accepted trigger
followed by its background job performs two `RunStatus` writes, and the
first one (the trigger handler's started/running write) happens while the
run lock is NOT held — so not every write is under the lock. -/
theorem status_write_outside_lock_cex :
    (job_run 7 true (trigger 3 fix_server_idle).2).writeLog = [false, true] ∧
    ((job_run 7 true (trigger 3 fix_server_idle).2).writeLog.all (fun b => b)) = false :=
  ⟨rfl, rfl⟩

/-- C6 (amended): in a full accepted-trigger-then-job run, exactly the
completion write happens while the run lock is held; the initial write
performed by the trigger handler happens before the background job acquires
the lock. -/
theorem status_writes_lock_discipline (s : ServerState) (now1 now2 : Nat) (res : Bool)
    (h : s.lockHeld = false) :
    (job_run now2 res (trigger now1 s).2).writeLog = s.writeLog ++ [false, true] := by
  simp [trigger, job_run, h]

/-- Witness for the amended C6 at the idle state. -/
theorem status_writes_lock_discipline_witness :
    fix_server_idle.lockHeld = false ∧
    (job_run 8 true (trigger 2 fix_server_idle).2).writeLog =
      fix_server_idle.writeLog ++ [false, true] :=
  ⟨rfl, status_writes_lock_discipline fix_server_idle 2 8 true rfl⟩

/-- C5 counterexample: in the web service's `_run_and_stream` with target
`"both"`, an exception in the Radarr cycle ends the run at the shared
handler — the Sonarr cycle is never attempted (no "starting sonarr" event),
contradicting the claim that the two kinds are independent failure units on
every run path. -/
theorem web_run_both_radarr_failure_cex :
    run_and_stream "both" (Except.error "boom") (Except.ok ()) =
      ([StreamEvent.runStart "both", StreamEvent.info "starting radarr",
        StreamEvent.errorEv "boom"], false) ∧
    (StreamEvent.info "starting sonarr") ∉
      (run_and_stream "both" (Except.error "boom") (Except.ok ())).1 :=
  ⟨rfl, by decide⟩

/-- C5 (amended): in the CLI entry point `main()` each cycle has its own
handler, so both kinds are always attempted regardless of either outcome;
in the web service's `_run_and_stream` a single handler wraps both cycles,
so with target `"both"` a Radarr exception prevents the Sonarr cycle from
being attempted. -/
theorem cycle_failure_isolation :
    (∀ radarrRun sonarrRun : Except String Unit,
       MainEvent.attemptRadarr ∈ main_run radarrRun sonarrRun ∧
       MainEvent.attemptSonarr ∈ main_run radarrRun sonarrRun) ∧
    (∀ (e : String) (sonarrRun : Except String Unit),
       (StreamEvent.info "starting sonarr") ∉
         (run_and_stream "both" (Except.error e) sonarrRun).1) := by
  constructor
  · intro r s
    cases r <;> cases s <;> simp [main_run]
  · intro e s
    simp only [run_and_stream]
    norm_num
    simp [show ("starting sonarr" : String) ≠ "starting radarr" by decide,
      show StreamEvent.info "starting sonarr" ≠ StreamEvent.runStart "both" by decide]

/-- C2 counterexample: with one monitored movie carrying the tag and one
unmonitored movie without it, every *monitored* movie is tagged, yet the
cycle performs no tag-removal update at all (the reset test
`all(tag_id in m.tags for m in movies)` ranges over all movies, monitored
or not) — it proceeds to candidate collection instead. -/
theorem full_cycle_reset_monitored_cex :
    run_radarr_upgrade fix_radarr_env_mixed = Except.ok [RadarrAction.collect] ∧
    (fix_radarr_env_mixed.movies.all
      (fun m => !m.monitored || m.tags.contains fix_radarr_env_mixed.tagId)) = true :=
  ⟨rfl, rfl⟩

/-- C2 (amended): when the movie list is non-empty and every movie —
monitored or not — already carries the engine tag, the cycle issues exactly
one tag-removal update per movie, never invokes candidate collection, and
issues no search command; the reset check indeed precedes collection. -/
theorem full_cycle_reset_all_movies (env : RadarrEnv)
    (hen : env.enabled = true) (hne : env.movies ≠ [])
    (hall : ∀ m ∈ env.movies, env.tagId ∈ m.tags) :
    run_radarr_upgrade env =
      Except.ok (env.movies.map (radarr_remove_tag_action env.tagId)) ∧
    RadarrAction.collect ∉ env.movies.map (radarr_remove_tag_action env.tagId) ∧
    (∀ ids, RadarrAction.searchMovies ids ∉
      env.movies.map (radarr_remove_tag_action env.tagId)) ∧
    (∀ m ∈ env.movies, radarr_remove_tag_action env.tagId m ∈
      env.movies.map (radarr_remove_tag_action env.tagId)) := by
  have hallb : env.movies.all (fun m => m.tags.contains env.tagId) = true := by
    rw [List.all_eq_true]
    intro m hm
    exact List.elem_iff.mpr (hall m hm)
  refine ⟨?_, ?_, ?_, ?_⟩
  · unfold run_radarr_upgrade
    rw [if_neg (by simp [hen]), if_neg (by rw [List.isEmpty_iff]; exact hne), if_pos hallb]
  · simp [List.mem_map, radarr_remove_tag_action]
  · intro ids
    simp [List.mem_map, radarr_remove_tag_action]
  · intro m hm
    exact List.mem_map_of_mem _ hm

/-- Witness for the amended C2 at a concrete all-tagged library. -/
theorem full_cycle_reset_all_movies_witness :
    (fix_radarr_env_alltagged.enabled = true ∧
      fix_radarr_env_alltagged.movies ≠ [] ∧
      fix_radarr_env_alltagged.movies.all
        (fun m => m.tags.contains fix_radarr_env_alltagged.tagId) = true) ∧
    run_radarr_upgrade fix_radarr_env_alltagged =
      Except.ok (fix_radarr_env_alltagged.movies.map
        (radarr_remove_tag_action fix_radarr_env_alltagged.tagId)) :=
  ⟨⟨rfl, by decide, by decide⟩,
    (full_cycle_reset_all_movies fix_radarr_env_alltagged rfl (by decide) (by decide)).1⟩

/-- C1 counterexample: an unmonitored, untagged series with one below-cutoff
episode file still yields a candidate — the Sonarr collector never consults
`monitored`, so "candidate ⇒ monitored" fails for episode files. -/
theorem candidate_membership_cex :
    (10 ∈ (collect_sonarr_upgrade_candidates fix_qscores [fix_series_unmon]
      fix_epfiles 7).map Prod.fst) ∧
    fix_series_unmon.monitored = false :=
  ⟨by decide, rfl⟩

/-- C1 (amended): for movies, an item (with unique ids and a successful
score fetch) is a candidate iff it is monitored, has a file, scores strictly
below its profile cutoff, and lacks the engine tag.  For episode files (with
globally unique ids), a file is a candidate iff its owning series has a
non-zero episode-file count, the series lacks the engine tag (series-level
check), and the file scores strictly below the series' profile cutoff — the
`monitored` flag is not consulted on the episodes side. -/
theorem candidate_membership_iff :
    (∀ (qScores : Int → Option Int) (allMovies : List Movie)
       (fetchFile : Int → Option MovieFile) (tagId : Int) (m : Movie) (mf : MovieFile),
       (∀ m1 ∈ allMovies, ∀ m2 ∈ allMovies, m1.id = m2.id → m1 = m2) →
       m ∈ allMovies → fetchFile m.movieFileId = some mf →
       (m.id ∈ (collect_radarr_upgrade_candidates qScores allMovies fetchFile tagId).map
          Prod.fst ↔
         (m.monitored = true ∧ m.movieFileId ≠ 0 ∧
          mf.customFormatScore.getD 0 < (qScores m.qualityProfileId).getD 0 ∧
          m.tags.contains tagId = false))) ∧
    (∀ (qScores : Int → Option Int) (seriesList : List Series)
       (episodeFiles : Int → Option (List EpisodeFile)) (tagId : Int)
       (serie : Series) (epfs : List EpisodeFile) (epf : EpisodeFile),
       (∀ s1 ∈ seriesList, ∀ f1 ∈ (episodeFiles s1.id).getD [],
          ∀ s2 ∈ seriesList, ∀ f2 ∈ (episodeFiles s2.id).getD [],
          f1.id = f2.id → s1 = s2 ∧ f1 = f2) →
       serie ∈ seriesList → episodeFiles serie.id = some epfs → epf ∈ epfs →
       (epf.id ∈ (collect_sonarr_upgrade_candidates qScores seriesList episodeFiles
          tagId).map Prod.fst ↔
         (serie.episodeFileCount ≠ 0 ∧ serie.tags.contains tagId = false ∧
          epf.customFormatScore.getD 0 < (qScores serie.qualityProfileId).getD 0))) := by
  constructor
  · intro qScores allMovies fetchFile tagId m mf inj hm hmf
    rw [mem_map_fst_iff]
    constructor
    · rintro ⟨info, hmem⟩
      rw [radarr_collect_mem inj] at hmem
      obtain ⟨m2, hm2, hid2, hmon2, hfid2, htag2, mf2, hmf2, hlt2, _⟩ := hmem
      have hmm : m2 = m := inj m2 hm2 m hm hid2
      subst hmm
      rw [hmf] at hmf2
      injection hmf2 with hmfeq
      exact ⟨hmon2, hfid2, by rw [hmfeq]; exact hlt2, htag2⟩
    · rintro ⟨hmon, hfid, hlt, htag⟩
      exact ⟨⟨m.title, mf.customFormatScore.getD 0, (qScores m.qualityProfileId).getD 0⟩,
        (radarr_collect_mem inj).mpr ⟨m, hm, rfl, hmon, hfid, htag, mf, hmf, hlt, rfl⟩⟩
  · intro qScores seriesList episodeFiles tagId serie epfs epf inj hs hfn hepf
    rw [mem_map_fst_iff]
    constructor
    · rintro ⟨info, hmem⟩
      rw [sonarr_collect_mem] at hmem
      obtain ⟨serie2, hs2, hcount2, htag2, epfs2, hfn2, epf2, hepf2, hid2, hlt2, _⟩ := hmem
      have h1 : epf2 ∈ (episodeFiles serie2.id).getD [] := by
        rw [hfn2]
        exact hepf2
      have h2 : epf ∈ (episodeFiles serie.id).getD [] := by
        rw [hfn]
        exact hepf
      obtain ⟨hseq, hfeq⟩ := inj serie2 hs2 epf2 h1 serie hs epf h2 hid2
      subst hseq
      subst hfeq
      exact ⟨hcount2, htag2, hlt2⟩
    · rintro ⟨hcount, htag, hlt⟩
      exact ⟨_, sonarr_collect_mem.mpr
        ⟨serie, hs, hcount, htag, epfs, hfn, epf, hepf, rfl, hlt, rfl⟩⟩

/-- Witness for the amended C1: a monitored below-cutoff untagged movie is a
candidate, and an (unmonitored) below-cutoff episode file of an untagged
series is a candidate. -/
theorem candidate_membership_iff_witness :
    ((∀ m1 ∈ [fix_movie], ∀ m2 ∈ [fix_movie], m1.id = m2.id → m1 = m2) ∧
      fix_movie ∈ [fix_movie] ∧
      fix_moviefiles fix_movie.movieFileId = some ⟨some 2⟩ ∧
      (fix_movie.id ∈ (collect_radarr_upgrade_candidates fix_qscores [fix_movie]
          fix_moviefiles 7).map Prod.fst ↔
        (fix_movie.monitored = true ∧ fix_movie.movieFileId ≠ 0 ∧
         (MovieFile.mk (some 2)).customFormatScore.getD 0 <
           (fix_qscores fix_movie.qualityProfileId).getD 0 ∧
         fix_movie.tags.contains 7 = false))) ∧
    ((∀ s1 ∈ [fix_series_unmon], ∀ f1 ∈ (fix_epfiles s1.id).getD [],
        ∀ s2 ∈ [fix_series_unmon], ∀ f2 ∈ (fix_epfiles s2.id).getD [],
        f1.id = f2.id → s1 = s2 ∧ f1 = f2) ∧
      fix_series_unmon ∈ [fix_series_unmon] ∧
      fix_epfiles fix_series_unmon.id = some [fix_epfile] ∧
      fix_epfile ∈ [fix_epfile] ∧
      (fix_epfile.id ∈ (collect_sonarr_upgrade_candidates fix_qscores [fix_series_unmon]
          fix_epfiles 7).map Prod.fst ↔
        (fix_series_unmon.episodeFileCount ≠ 0 ∧
         fix_series_unmon.tags.contains 7 = false ∧
         fix_epfile.customFormatScore.getD 0 <
           (fix_qscores fix_series_unmon.qualityProfileId).getD 0))) :=
  ⟨⟨by decide, by decide, by decide,
      candidate_membership_iff.1 fix_qscores [fix_movie] fix_moviefiles 7 fix_movie ⟨some 2⟩
        (by decide) (by decide) (by decide)⟩,
    ⟨by decide, by decide, by decide, by decide,
      candidate_membership_iff.2 fix_qscores [fix_series_unmon] fix_epfiles 7 fix_series_unmon
        [fix_epfile] fix_epfile (by decide) (by decide) (by decide) (by decide)⟩⟩

/-- C10: a profile id absent from the cutoff map, and a profile record
lacking `cutoffFormatScore`, both yield cutoff `0` (`q_scores.get(pid, 0)` /
`p.get("cutoffFormatScore", 0)`); consequently an item whose profile is
unmapped becomes a candidate — in either collector — only with a strictly
negative current file score. -/
theorem missing_cutoff_defaults_zero :
    (∀ (profiles : List QualityProfile) (pid : Int),
       (∀ p ∈ profiles, p.id ≠ pid) →
       (quality_profiles_cutoff_scores profiles pid).getD 0 = 0) ∧
    (∀ (profiles : List QualityProfile) (p : QualityProfile),
       p ∈ profiles → p.cutoffFormatScore = none →
       (∀ q ∈ profiles, q.id = p.id → q = p) →
       (quality_profiles_cutoff_scores profiles p.id).getD 0 = 0) ∧
    (∀ (qScores : Int → Option Int) (allMovies : List Movie)
       (fetchFile : Int → Option MovieFile) (tagId : Int) (info : RadarrCandidate)
       (m : Movie),
       (∀ m1 ∈ allMovies, ∀ m2 ∈ allMovies, m1.id = m2.id → m1 = m2) →
       m ∈ allMovies → qScores m.qualityProfileId = none →
       (m.id, info) ∈ collect_radarr_upgrade_candidates qScores allMovies fetchFile tagId →
       info.requiredScore = 0 ∧ info.currentScore < 0) ∧
    (∀ (qScores : Int → Option Int) (seriesList : List Series)
       (episodeFiles : Int → Option (List EpisodeFile)) (tagId fid : Int)
       (info : SonarrCandidate) (serie : Series),
       serie ∈ seriesList → (∀ s ∈ seriesList, s.id = serie.id → s = serie) →
       info.seriesId = serie.id → qScores serie.qualityProfileId = none →
       (fid, info) ∈ collect_sonarr_upgrade_candidates qScores seriesList episodeFiles tagId →
       info.requiredScore = 0 ∧ info.currentScore < 0) := by
  refine ⟨?_, ?_, ?_, ?_⟩
  · intro profiles pid h
    have hnone : profiles.reverse.find? (fun p => p.id == pid) = none := by
      rw [List.find?_eq_none]
      intro x hx
      simp only [beq_iff_eq]
      exact h x (List.mem_reverse.mp hx)
    unfold quality_profiles_cutoff_scores
    rw [hnone]
    rfl
  · intro profiles p hp hnone huniq
    unfold quality_profiles_cutoff_scores
    cases hfind : profiles.reverse.find? (fun q => q.id == p.id) with
    | none =>
      exfalso
      rw [List.find?_eq_none] at hfind
      exact hfind p (List.mem_reverse.mpr hp) (by simp)
    | some q =>
      have hpq := List.find?_some hfind
      have hq : q = p := huniq q (List.mem_reverse.mp (List.mem_of_find?_eq_some hfind))
        (eq_of_beq hpq)
      subst hq
      simp [hnone]
  · intro qScores allMovies fetchFile tagId info m inj hm hqs hmem
    rw [radarr_collect_mem inj] at hmem
    obtain ⟨m2, hm2, hid2, _, _, _, mf2, _, hlt2, hinfo⟩ := hmem
    have hmm : m2 = m := inj m2 hm2 m hm hid2
    subst hmm
    rw [hqs] at hlt2
    simp only [Option.getD_none] at hlt2
    constructor
    · simp [hinfo, hqs]
    · simpa [hinfo] using hlt2
  · intro qScores seriesList episodeFiles tagId fid info serie hs huniq hsid hqs hmem
    rw [sonarr_collect_mem] at hmem
    obtain ⟨serie2, hs2, _, _, epfs2, _, epf2, _, _, hlt2, hinfo⟩ := hmem
    have hseq : serie2 = serie := huniq serie2 hs2 (by rw [← hsid, hinfo])
    subst hseq
    rw [hqs] at hlt2
    simp only [Option.getD_none] at hlt2
    constructor
    · simp [hinfo, hqs]
    · simpa [hinfo] using hlt2

/-- Witness for C10 at concrete inputs: an unmapped profile id, a profile
record without a cutoff, and one movie and one episode file with unmapped
profiles and negative scores that are candidates. -/
theorem missing_cutoff_defaults_zero_witness :
    ((∀ p ∈ [QualityProfile.mk 1 (some 5)], p.id ≠ 2) ∧
      (quality_profiles_cutoff_scores [QualityProfile.mk 1 (some 5)] 2).getD 0 = 0) ∧
    ((QualityProfile.mk 1 none ∈ [QualityProfile.mk 1 none]) ∧
      (quality_profiles_cutoff_scores [QualityProfile.mk 1 none]
        (QualityProfile.mk 1 none).id).getD 0 = 0) ∧
    ((((4 : Int), RadarrCandidate.mk "N" (-1) 0) ∈
        collect_radarr_upgrade_candidates (fun _ => none) [fix_movie_negscore]
          fix_moviefiles_neg 7) ∧
      (RadarrCandidate.mk "N" (-1) 0).requiredScore = 0 ∧
      (RadarrCandidate.mk "N" (-1) 0).currentScore < 0) ∧
    ((((20 : Int), SonarrCandidate.mk "T (EpisodeFile 20)" 2 (-2) 0) ∈
        collect_sonarr_upgrade_candidates (fun _ => none) [fix_series_negscore]
          fix_epfiles_neg 7) ∧
      (SonarrCandidate.mk "T (EpisodeFile 20)" 2 (-2) 0).requiredScore = 0 ∧
      (SonarrCandidate.mk "T (EpisodeFile 20)" 2 (-2) 0).currentScore < 0) :=
  ⟨⟨by decide, missing_cutoff_defaults_zero.1 [QualityProfile.mk 1 (some 5)] 2 (by decide)⟩,
    ⟨by decide, missing_cutoff_defaults_zero.2.1 [QualityProfile.mk 1 none]
      (QualityProfile.mk 1 none) (by decide) rfl (by decide)⟩,
    ⟨by decide, missing_cutoff_defaults_zero.2.2.1 (fun _ => none) [fix_movie_negscore]
      fix_moviefiles_neg 7 (RadarrCandidate.mk "N" (-1) 0) fix_movie_negscore
      (by decide) (by decide) rfl (by decide)⟩,
    ⟨by decide, missing_cutoff_defaults_zero.2.2.2 (fun _ => none) [fix_series_negscore]
      fix_epfiles_neg 7 20 (SonarrCandidate.mk "T (EpisodeFile 20)" 2 (-2) 0)
      fix_series_negscore (by decide) (by decide) rfl rfl (by decide)⟩⟩

/-- C7: for any successful selection outcome of the episodes cycle, the run
tags the owning series of every selected file, then issues one
`EpisodeSearch` carrying exactly the deduplicated ascending-sorted resolved
episode ids (each coming from some selected file's best-effort resolution;
unresolvable files contribute nothing while their series tag action stays),
and skips the search entirely when resolution yields no episode id. -/
theorem sonarr_search_batch (env : SonarrEnv) (selected : List Int)
    (hen : env.enabled = true)
    (hne : (collect_sonarr_upgrade_candidates env.qScores env.seriesList env.episodeFiles
      env.tagId).isEmpty = false)
    (hsel : select_k env.oracle env.num
      ((collect_sonarr_upgrade_candidates env.qScores env.seriesList env.episodeFiles
        env.tagId).map Prod.fst) = some selected) :
    run_sonarr_upgrade env = Except.ok (SonarrAction.collect ::
      (selected.map (sonarr_tag_action env (collect_sonarr_upgrade_candidates env.qScores
          env.seriesList env.episodeFiles env.tagId)) ++
        (if (sorted_set (selected.flatMap (episode_ids_for_episodefile env.resolve))).isEmpty
         then []
         else [SonarrAction.searchEpisodes
           (sorted_set (selected.flatMap (episode_ids_for_episodefile env.resolve)))]))) ∧
    (sorted_set (selected.flatMap (episode_ids_for_episodefile env.resolve))).Sorted
      (fun a b => a ≤ b) ∧
    (sorted_set (selected.flatMap (episode_ids_for_episodefile env.resolve))).Nodup ∧
    (∀ i ∈ sorted_set (selected.flatMap (episode_ids_for_episodefile env.resolve)),
      ∃ e ∈ selected, i ∈ episode_ids_for_episodefile env.resolve e) ∧
    ((selected.flatMap (episode_ids_for_episodefile env.resolve)) = [] →
      run_sonarr_upgrade env = Except.ok (SonarrAction.collect ::
        selected.map (sonarr_tag_action env (collect_sonarr_upgrade_candidates env.qScores
          env.seriesList env.episodeFiles env.tagId)))) := by
  have hrun : run_sonarr_upgrade env = Except.ok (SonarrAction.collect ::
      (selected.map (sonarr_tag_action env (collect_sonarr_upgrade_candidates env.qScores
          env.seriesList env.episodeFiles env.tagId)) ++
        (if (sorted_set (selected.flatMap (episode_ids_for_episodefile env.resolve))).isEmpty
         then []
         else [SonarrAction.searchEpisodes
           (sorted_set (selected.flatMap (episode_ids_for_episodefile env.resolve)))]))) := by
    simp only [run_sonarr_upgrade]
    rw [if_neg (by simp [hen]), if_neg (by simp [hne]), hsel]
  refine ⟨hrun, sorted_set_sorted _, sorted_set_nodup _, ?_, ?_⟩
  · intro i hi
    rw [mem_sorted_set] at hi
    exact List.mem_flatMap.mp hi
  · intro h0
    rw [hrun, h0]
    simp [sorted_set]

/-- Witness for C7 at a concrete snapshot: two selected files, one of which
fails to resolve; the resolved batch is sorted and duplicate-free. -/
theorem sonarr_search_batch_witness :
    (fix_sonarr_env.enabled = true ∧
      (collect_sonarr_upgrade_candidates fix_sonarr_env.qScores fix_sonarr_env.seriesList
        fix_sonarr_env.episodeFiles fix_sonarr_env.tagId).isEmpty = false ∧
      select_k fix_sonarr_env.oracle fix_sonarr_env.num
        ((collect_sonarr_upgrade_candidates fix_sonarr_env.qScores fix_sonarr_env.seriesList
          fix_sonarr_env.episodeFiles fix_sonarr_env.tagId).map Prod.fst) =
        some [10, 11]) ∧
    (sorted_set (([10, 11] : List Int).flatMap
      (episode_ids_for_episodefile fix_sonarr_env.resolve))).Sorted (fun a b => a ≤ b) ∧
    (sorted_set (([10, 11] : List Int).flatMap
      (episode_ids_for_episodefile fix_sonarr_env.resolve))).Nodup :=
  ⟨⟨rfl, by decide, by decide⟩,
    (sonarr_search_batch fix_sonarr_env [10, 11] rfl (by decide) (by decide)).2.1,
    (sonarr_search_batch fix_sonarr_env [10, 11] rfl (by decide) (by decide)).2.2.1⟩
